import Mathlib

/-!
Verification development for the LinePod/Debugger relay.

The repository is a set of small asyncio relays between TCP connections
(device side) and WebSocket connections (debugger side):

* `src/io/server.py`    — debug/emulation server: WebSocket port, an
  "emulator" TCP port speaking a framed job protocol (36-byte token,
  4-byte big-endian length, payload = SVG to be converted), and a raw
  GPGL TCP port.
* `src/gpgl_input/bridge.py` — plain bidirectional TCP↔WebSocket bridge.
* `src/bridge.py`       — an older class-based variant of the same bridge.
* `src/send-svg.py`     — one-shot client encoding one job frame.
* `src/svg_input/server.py` — one-shot SVG conversion relay.

The embedding below is a shallow one: each forwarder coroutine becomes a
pure Lean function over an explicit script of its I/O events (the bytes
its reader will deliver before EOF, the outcome of each WebSocket send,
the outcome of each external conversion).  Registries are Lean lists;
Python `list.remove` becomes `removeFirst` (first occurrence) or, where
the possibility of `ValueError` matters, `pyRemove`.  Exceptions that a
coroutine does not catch are modelled as distinguished exit values that
record the state at the moment the exception escapes (in particular: no
registry removal happens on such paths, exactly as in the source, where
the `remove` calls are not in `finally` blocks).
-/

set_option autoImplicit false

namespace Debugger

/-- Log levels produced via the `logging` module (or `print` in the old
bridge, where we record which branch printed). -/
inductive LogEvent where
  | debug (msg : String)
  | info (msg : String)
  | warning (msg : String)
  deriving DecidableEq, Repr

/-- `true` exactly for warning-level events. -/
def LogEvent.isWarning : LogEvent → Bool
  | .warning _ => true
  | _ => false

/-- `true` exactly for info-level events. -/
def LogEvent.isInfo : LogEvent → Bool
  | .info _ => true
  | _ => false

/-- Outcome of one `websocket.send` / `websocket.recv` as far as the
exception handlers in the source can observe it: either it succeeds or it
raises `websockets.ConnectionClosed` carrying a close code and reason. -/
inductive SendResult where
  | ok
  | connClosed (code : Nat) (reason : String)
  deriving DecidableEq, Repr

/-- `true` when the outcome is a `ConnectionClosed` exception. -/
def SendResult.isClosed : SendResult → Bool
  | .ok => false
  | .connClosed _ _ => true

/-- Python `list.remove(x)`: removes the first occurrence, raises
`ValueError` when `x` is absent.  The `Except` value models the raise. -/
def pyRemove {α : Type} [DecidableEq α] : List α → α → Except Unit (List α)
  | [], _ => .error ()
  | y :: ys, x =>
    if y = x then .ok ys
    else match pyRemove ys x with
      | .error e => .error e
      | .ok ys' => .ok (y :: ys')

/-- Total version of `list.remove`: removes the first occurrence, leaves
the list unchanged when the element is absent.  Used where the source
guarantees presence. -/
def removeFirst {α : Type} [DecidableEq α] : List α → α → List α
  | [], _ => []
  | y :: ys, x => if y = x then ys else y :: removeFirst ys x

/-- `for x in closed: lst.remove(x)` — fold `removeFirst` over `closed`. -/
def removeAll {α : Type} [DecidableEq α] (l : List α) (closed : List α) : List α :=
  closed.foldl removeFirst l

/-- `struct.unpack('>I', bs)[0]` on a 4-byte string: big-endian base-256
value of the bytes. -/
def beU32 (bs : List Nat) : Nat :=
  bs.foldl (fun acc b => acc * 256 + b) 0

/-- `struct.pack('>I', n)` for `n < 2^32`: the four big-endian bytes. -/
def packBE4 (n : Nat) : List Nat :=
  [n / 16777216 % 256, n / 65536 % 256, n / 256 % 256, n % 256]

/-- `bytes.decode('ascii')` succeeds exactly when every byte is < 128. -/
def allAscii (bs : List Nat) : Bool :=
  bs.all (fun b => b < 128)

/-- Continuation byte of a UTF-8 sequence: `0x80..0xBF`. -/
def utf8Cont (b : Nat) : Bool :=
  128 ≤ b && b ≤ 191

/-- `bytes.decode('utf-8')` succeeds exactly when the byte list is valid
UTF-8 (no overlong encodings, no surrogates, at most U+10FFFF). -/
def validUtf8 : List Nat → Bool
  | [] => true
  | b :: r =>
    if b ≤ 127 then validUtf8 r
    else if 194 ≤ b ∧ b ≤ 223 then
      match r with
      | c1 :: r2 => utf8Cont c1 && validUtf8 r2
      | [] => false
    else if b = 224 then
      match r with
      | c1 :: c2 :: r2 => (160 ≤ c1 && c1 ≤ 191) && utf8Cont c2 && validUtf8 r2
      | _ => false
    else if (225 ≤ b ∧ b ≤ 236) ∨ b = 238 ∨ b = 239 then
      match r with
      | c1 :: c2 :: r2 => utf8Cont c1 && utf8Cont c2 && validUtf8 r2
      | _ => false
    else if b = 237 then
      match r with
      | c1 :: c2 :: r2 => (128 ≤ c1 && c1 ≤ 159) && utf8Cont c2 && validUtf8 r2
      | _ => false
    else if b = 240 then
      match r with
      | c1 :: c2 :: c3 :: r2 =>
        (144 ≤ c1 && c1 ≤ 191) && utf8Cont c2 && utf8Cont c3 && validUtf8 r2
      | _ => false
    else if 241 ≤ b ∧ b ≤ 243 then
      match r with
      | c1 :: c2 :: c3 :: r2 =>
        utf8Cont c1 && utf8Cont c2 && utf8Cont c3 && validUtf8 r2
      | _ => false
    else if b = 244 then
      match r with
      | c1 :: c2 :: c3 :: r2 =>
        (128 ≤ c1 && c1 ≤ 143) && utf8Cont c2 && utf8Cont c3 && validUtf8 r2
      | _ => false
    else false

/-- `asyncio.StreamReader.readexactly n` on a connection whose remaining
input before EOF is `s`: returns the `n` bytes and the rest of the
stream, or raises `IncompleteReadError` whose `partial` field holds every
byte that did arrive (`Except.error`). -/
def readexactly (n : Nat) (s : List Nat) : Except (List Nat) (List Nat × List Nat) :=
  if n ≤ s.length then .ok (s.take n, s.drop n) else .error s

/-! ## `src/io/server.py` — debug/emulation server -/

namespace IoServer

/-- `TcpConnection = namedtuple('TcpConnection', ('writer', 'reader', 'name'))`;
the stream halves live in the event scripts, so the name identifies the
connection. -/
structure TcpConnection where
  name : String
  deriving DecidableEq, Repr

/-- `WsConnection = namedtuple('WsConnection', ('socket', 'close_event', 'name'))`. -/
structure WsConnection where
  name : String
  deriving DecidableEq, Repr

/-- `OK_WS_CLOSE_CODES = {1000, 1001}`. -/
def OK_WS_CLOSE_CODES : List Nat := [1000, 1001]

/-- Result of `handle_ws_connection_closed`: the completion event is set
and one line is logged. -/
structure ClosedHandled where
  eventSet : Bool
  log : LogEvent
  deriving DecidableEq, Repr

/-- `handle_ws_connection_closed(connection, e, logger)`: sets
`connection.close_event`, then logs a warning for unexpected close codes
and an info line for codes in `OK_WS_CLOSE_CODES`. -/
def handle_ws_connection_closed (name : String) (code : Nat) (reason : String) :
    ClosedHandled :=
  { eventSet := true
    log :=
      if code ∈ OK_WS_CLOSE_CODES then
        .info ("Websocket connection from " ++ name ++ " closed")
      else
        .warning ("Websocket connection from " ++ name ++
          " closed with unexpected code " ++ toString code ++
          " and reason: " ++ reason) }

/-- Result of `try_write_to_all`: the registry after the removal loop,
the payloads actually delivered (in send order), and the log lines. -/
structure BroadcastResult where
  ws : List WsConnection
  sends : List (WsConnection × List Nat)
  logs : List LogEvent
  deriving DecidableEq, Repr

/-- The `for ws_connection in ws_connections` send loop of
`try_write_to_all`: successful sends are recorded, each
`ConnectionClosed` is handled (event set, log line) and the connection
collected in `closed`. -/
def sendPass (out : WsConnection → SendResult) (data : List Nat) :
    List WsConnection →
      List (WsConnection × List Nat) × List WsConnection × List LogEvent
  | [] => ([], [], [])
  | w :: rest =>
    match out w with
    | .ok =>
      let (s, c, l) := sendPass out data rest
      ((w, data) :: s, c, l)
    | .connClosed code reason =>
      let h := handle_ws_connection_closed w.name code reason
      let (s, c, l) := sendPass out data rest
      (s, w :: c, h.log :: l)

/-- `try_write_to_all(data, ws_connections, logger)`: send to every
registered WebSocket connection, handling closed connections, then
remove every collected closed connection from the registry. -/
def try_write_to_all (data : List Nat) (out : WsConnection → SendResult)
    (ws : List WsConnection) : BroadcastResult :=
  let (s, c, l) := sendPass out data ws
  { ws := removeAll ws c, sends := s, logs := l }

/-- Behaviour of one invocation of the external converter executable:
either `subprocess.run` raises (e.g. `FileNotFoundError` because
`CONVERTER_PATH` is missing/unreadable), or the process completes with
the given stderr and stdout bytes. -/
inductive ConvOutcome where
  | raised
  | completed (stderrBytes : List Nat) (stdoutBytes : List Nat)
  deriving DecidableEq, Repr

/-- `convert_svg(svg_bytes, logger)`: writes the SVG to a temp file and
runs the converter; non-empty stderr is logged as a warning; stdout is
the result.  A raise from `subprocess.run` propagates (`Except.error`). -/
def convert_svg : ConvOutcome → Except Unit (List LogEvent × List Nat)
  | .raised => .error ()
  | .completed stderrBytes stdoutBytes =>
    .ok ((if stderrBytes = [] then [] else [.warning "Errors from converter"]),
      stdoutBytes)

/-- How one pass of the `while True` body of
`handle_emulator_tcp_connection` ends: every `exit` constructor is a path
on which the coroutine returns or an exception escapes it. -/
inductive EmuExit where
  /-- `IncompleteReadError` on the token read with `partial` empty:
  debug log, registry removal at line 121, `return`. -/
  | cleanEof
  /-- any other `IncompleteReadError`: caught at line 137, warning log,
  registry removal at line 142. -/
  | partialFrame
  /-- `svg_uuid.decode('ascii')` raised `UnicodeDecodeError` (line 124):
  uncaught, no removal. -/
  | nonAsciiToken
  /-- the conversion raised in the executor (line 129): uncaught, no
  removal. -/
  | convRaised
  /-- `gpgl_code.decode('utf-8')` raised (line 135): uncaught, no
  removal. -/
  | nonUtf8Output
  deriving DecidableEq, Repr

/-- Final state of one `handle_emulator_tcp_connection` coroutine. -/
structure EmuResult where
  ws : List WsConnection
  tcp : List TcpConnection
  logs : List LogEvent
  sends : List (WsConnection × List Nat)
  /-- the `(token, payload)` pairs the reader fully reconstructed. -/
  frames : List (List Nat × List Nat)
  exit : EmuExit
  deriving DecidableEq, Repr

/-- One pass of the loop body: either the coroutine ends (result) or the
loop continues on the rest of the input stream, which is strictly
shorter (a full frame was consumed). -/
inductive EmuStep (n : Nat) where
  | exit (r : EmuResult)
  | next (ws : List WsConnection) (logs : List LogEvent)
      (sends : List (WsConnection × List Nat))
      (frames : List (List Nat × List Nat))
      (rest : { l : List Nat // l.length < n })

/-- One iteration of `handle_emulator_tcp_connection`'s `while True`:
read 36 token bytes (empty partial ⇒ clean EOF with removal; non-empty
partial re-raised ⇒ warning with removal), debug-log the token decoded
as ASCII (raises on a non-ASCII byte), read the 4-byte big-endian
length, read the payload, convert (in the executor), decode the result
as UTF-8 and broadcast it with `try_write_to_all`. -/
def emuStep (conv : ConvOutcome) (out : WsConnection → SendResult)
    (conn : TcpConnection) (ws : List WsConnection) (tcp : List TcpConnection)
    (logs : List LogEvent) (sends : List (WsConnection × List Nat))
    (frames : List (List Nat × List Nat)) (s : List Nat) : EmuStep s.length :=
  match h36 : readexactly 36 s with
  | .error part =>
    if part.length = 0 then
      .exit { ws := ws, tcp := removeFirst tcp conn
              logs := logs ++ [.debug ("TCP connection from " ++ conn.name ++
                " disconnected")]
              sends := sends, frames := frames, exit := .cleanEof }
    else
      .exit { ws := ws, tcp := removeFirst tcp conn
              logs := logs ++ [.warning ("TCP connection " ++ conn.name ++
                " dropped while reading message")]
              sends := sends, frames := frames, exit := .partialFrame }
  | .ok (token, s1) =>
    if allAscii token then
      match h4 : readexactly 4 s1 with
      | .error _ =>
        .exit { ws := ws, tcp := removeFirst tcp conn
                logs := logs ++ [.debug "Receiving SVG with UUID"] ++
                  [.warning ("TCP connection " ++ conn.name ++
                    " dropped while reading message")]
                sends := sends, frames := frames, exit := .partialFrame }
      | .ok (lenBytes, s2) =>
        match hp : readexactly (beU32 lenBytes) s2 with
        | .error _ =>
          .exit { ws := ws, tcp := removeFirst tcp conn
                  logs := logs ++ [.debug "Receiving SVG with UUID"] ++
                    [.warning ("TCP connection " ++ conn.name ++
                      " dropped while reading message")]
                  sends := sends, frames := frames, exit := .partialFrame }
        | .ok (svgBytes, s3) =>
          match convert_svg conv with
          | .error _ =>
            .exit { ws := ws, tcp := tcp
                    logs := logs ++ [.debug "Receiving SVG with UUID"] ++
                      [.debug "Converting SVG"]
                    sends := sends, frames := frames ++ [(token, svgBytes)]
                    exit := .convRaised }
          | .ok (convLogs, gpglBytes) =>
            if validUtf8 gpglBytes then
              .next (try_write_to_all gpglBytes out ws).ws
                (logs ++ [.debug "Receiving SVG with UUID"] ++
                  [.debug "Converting SVG"] ++ convLogs ++
                  [.debug "Converted SVG"] ++ [.debug "Forwarding converted GPGL"] ++
                  (try_write_to_all gpglBytes out ws).logs)
                (sends ++ (try_write_to_all gpglBytes out ws).sends)
                (frames ++ [(token, svgBytes)]) ⟨s3, by
                  unfold readexactly at h36 h4 hp
                  split at h36
                  · injection h36 with h36'
                    injection h36' with ht hs1
                    split at h4
                    · injection h4 with h4'
                      injection h4' with hl hs2
                      split at hp
                      · injection hp with hp'
                        injection hp' with hv hs3
                        subst hs1
                        subst hs2
                        subst hs3
                        simp only [List.length_drop]
                        omega
                      · cases hp
                    · cases h4
                  · cases h36⟩
            else
              .exit { ws := ws, tcp := tcp
                      logs := logs ++ [.debug "Receiving SVG with UUID"] ++
                        [.debug "Converting SVG"] ++ convLogs ++
                        [.debug "Converted SVG"] ++
                        [.debug "Forwarding converted GPGL"]
                      sends := sends, frames := frames ++ [(token, svgBytes)]
                      exit := .nonUtf8Output }
    else
      .exit { ws := ws, tcp := tcp, logs := logs, sends := sends
              frames := frames, exit := .nonAsciiToken }

/-- `handle_emulator_tcp_connection(connection, loop, ws_connections,
emulator_tcp_connections, logger)`: the framed-job forwarder loop.
`conv`/`out` give the outcome of the `k`-th frame's conversion and of
sends to each WebSocket connection while broadcasting the `k`-th frame's
result; `s` is the byte stream the peer delivers before closing. -/
def handle_emulator_tcp_connection (conv : Nat → ConvOutcome)
    (out : Nat → WsConnection → SendResult) (conn : TcpConnection) (k : Nat)
    (ws : List WsConnection) (tcp : List TcpConnection) (logs : List LogEvent)
    (sends : List (WsConnection × List Nat))
    (frames : List (List Nat × List Nat)) (s : List Nat) : EmuResult :=
  match emuStep (conv k) (out k) conn ws tcp logs sends frames s with
  | .exit r => r
  | .next ws' logs' sends' frames' rest =>
    handle_emulator_tcp_connection conv out conn (k + 1) ws' tcp logs' sends'
      frames' rest.1
termination_by s.length
decreasing_by exact rest.2

/-- How `handle_raw_gpgl_tcp_connection` ends. -/
inductive RawExit where
  /-- `reader.read` returned `b''`: debug log, `return`.  (The raw
  handler touches no registry on this path — it was never registered.) -/
  | cleanEof
  /-- `data.decode('ascii')` raised: uncaught, the task dies. -/
  | nonAscii
  deriving DecidableEq, Repr

/-- Final state of one `handle_raw_gpgl_tcp_connection` coroutine. -/
structure RawResult where
  ws : List WsConnection
  logs : List LogEvent
  sends : List (WsConnection × List Nat)
  exit : RawExit
  deriving DecidableEq, Repr

/-- `handle_raw_gpgl_tcp_connection(connection, ws_connections, logger)`:
read up to `TCP_BUFFER_SIZE` bytes, empty read ⇒ clean EOF, otherwise
decode as ASCII and broadcast with `try_write_to_all`.  `chunks` is the
script of values `reader.read` returns (a final implicit `b''` ends the
loop); `out k` gives the send outcomes while broadcasting chunk `k`. -/
def handle_raw_gpgl_tcp_connection (out : Nat → WsConnection → SendResult)
    (conn : TcpConnection) (k : Nat) (ws : List WsConnection)
    (logs : List LogEvent) (sends : List (WsConnection × List Nat)) :
    List (List Nat) → RawResult
  | [] =>
    { ws := ws
      logs := logs ++ [.debug ("GPGL connection " ++ conn.name ++ " was closed")]
      sends := sends, exit := .cleanEof }
  | data :: rest =>
    if data = [] then
      { ws := ws
        logs := logs ++ [.debug ("GPGL connection " ++ conn.name ++ " was closed")]
        sends := sends, exit := .cleanEof }
    else if allAscii data then
      handle_raw_gpgl_tcp_connection out conn (k + 1)
        (try_write_to_all data (out k) ws).ws
        (logs ++ [.debug "Forwarding raw GPGL"] ++
          (try_write_to_all data (out k) ws).logs)
        (sends ++ (try_write_to_all data (out k) ws).sends) rest
    else
      { ws := ws, logs := logs ++ [.debug "Forwarding raw GPGL"], sends := sends
        exit := .nonAscii }

/-- `accept_gpgl_tcp_connection(reader, writer, ws_connections, logger)`:
builds the `TcpConnection` and spawns the raw handler.  It appends the
connection to no registry: the returned registries are the ones it was
handed. -/
def accept_gpgl_tcp_connection (name : String) (ws : List WsConnection)
    (tcp : List TcpConnection) :
    TcpConnection × List WsConnection × List TcpConnection :=
  ({ name := name }, ws, tcp)

/-- One outcome of `await connection.socket.recv()` in
`handle_websocket_data`: a received message (modelled by its UTF-8
encoding, which `data.encode('utf-8')` produces for any `str`), or a
`ConnectionClosed` exception. -/
inductive WsEvent where
  | msg (data : List Nat)
  | closedErr (code : Nat) (reason : String)
  deriving DecidableEq, Repr

/-- How `handle_websocket_data` left its loop. -/
inductive WsDataExit where
  /-- `ConnectionClosed` from `recv`, `ws_connections.remove` succeeded,
  `return`. -/
  | closedRemoved
  /-- `ConnectionClosed` from `recv`, but the connection was no longer
  in the registry (a concurrent broadcast already removed it):
  `list.remove` raised `ValueError`, uncaught. -/
  | valueError
  /-- the event script is exhausted: the loop is still parked on `recv`. -/
  | pending
  deriving DecidableEq, Repr

/-- Final state of one `handle_websocket_data` coroutine. -/
structure WsDataResult where
  ws : List WsConnection
  /-- `(target, message index, bytes)` for every `writer.write` issued;
  the writes of one message are issued with no `await` between them. -/
  writes : List (TcpConnection × Nat × List Nat)
  logs : List LogEvent
  exit : WsDataExit
  deriving DecidableEq, Repr

/-- `handle_websocket_data(connection, ws_connections,
emulator_tcp_connections, logger)`: forward each message received from
the debugger website to every emulator TCP connection; the write loop
contains no `await`, so the whole block of writes for one message is
one atomic step.  `tcpAt k` is the emulator TCP registry as the `k`-th
event is handled (it can change between messages, not within one). -/
def handle_websocket_data (conn : WsConnection)
    (tcpAt : Nat → List TcpConnection) (k : Nat) (ws : List WsConnection)
    (logs : List LogEvent) (writes : List (TcpConnection × Nat × List Nat)) :
    List WsEvent → WsDataResult
  | [] => { ws := ws, writes := writes, logs := logs, exit := .pending }
  | .closedErr code reason :: _ =>
    match pyRemove ws conn with
    | .error _ =>
      { ws := ws, writes := writes
        logs := logs ++ [(handle_ws_connection_closed conn.name code reason).log]
        exit := .valueError }
    | .ok ws' =>
      { ws := ws', writes := writes
        logs := logs ++ [(handle_ws_connection_closed conn.name code reason).log]
        exit := .closedRemoved }
  | .msg data :: rest =>
    handle_websocket_data conn tcpAt (k + 1) ws
      (logs ++ [.debug "Sending data from debugger website to TCP connections"])
      (writes ++ (tcpAt k).map (fun t => (t, k, data))) rest

/-- The per-message write blocks a WS data producer emits from message
index `k` on: message `k + i` is written to every connection registered
at that time, and the block for one message is contiguous. -/
def messageBlocks (tcpAt : Nat → List TcpConnection) (k : Nat) :
    List (List Nat) → List (TcpConnection × Nat × List Nat)
  | [] => []
  | data :: rest =>
    (tcpAt k).map (fun t => (t, k, data)) ++ messageBlocks tcpAt (k + 1) rest

end IoServer

/-! ## `src/gpgl_input/bridge.py` — plain TCP↔WebSocket bridge -/

namespace GpglBridge

/-- `class TcpConnection(NamedTuple): writer; reader; name` — note: this
type has **no** `close_event` field. -/
structure TcpConnection where
  name : String
  deriving DecidableEq, Repr

/-- `class WsConnection(NamedTuple): socket; close_event; name`. -/
structure WsConnection where
  name : String
  deriving DecidableEq, Repr

/-- A value passed where the source annotates `connection: WsConnection`;
Python does not enforce the annotation, and `forward_from_tcp` actually
passes its `TcpConnection` at line 106. -/
inductive AnyConnection where
  | ws (w : WsConnection)
  | tcp (t : TcpConnection)
  deriving DecidableEq, Repr

/-- `.name` exists on both namedtuples. -/
def AnyConnection.name : AnyConnection → String
  | .ws w => w.name
  | .tcp t => t.name

/-- `connection.close_event.set()`: succeeds on a `WsConnection`; on a
`TcpConnection` the attribute lookup raises `AttributeError`. -/
def AnyConnection.setCloseEvent : AnyConnection → Except Unit Unit
  | .ws _ => .ok ()
  | .tcp _ => .error ()

/-- `OK_WS_CLOSE_CODES = {1000, 1001}` (same as the io server). -/
def OK_WS_CLOSE_CODES : List Nat := [1000, 1001]

/-- `handle_ws_connection_closed(connection, e, logger)`: first
`connection.close_event.set()` (which raises `AttributeError` when the
caller passed a `TcpConnection`), then the classified log line. -/
def handle_ws_connection_closed (c : AnyConnection) (code : Nat)
    (reason : String) : Except Unit LogEvent :=
  match c.setCloseEvent with
  | .error e => .error e
  | .ok _ =>
    .ok (if code ∈ OK_WS_CLOSE_CODES then
          .info ("Websocket connection from " ++ c.name ++ " closed")
        else
          .warning ("Websocket connection from " ++ c.name ++
            " closed with unexpected code " ++ toString code ++
            " and reason: " ++ reason))

/-- Result of the inline send loop of `forward_from_tcp` (lines
101-107): either the loop finished, yielding the deliveries, the
collected `closed` list and the log lines, or an exception escaped the
`except` block after the recorded deliveries. -/
inductive BridgeSendPass where
  | done (sends : List (WsConnection × List Nat)) (closed : List WsConnection)
      (logs : List LogEvent)
  | raised (sends : List (WsConnection × List Nat))
  deriving DecidableEq, Repr

/-- The send loop of `forward_from_tcp`: on a `ConnectionClosed` it calls
`handle_ws_connection_closed(connection, e, logger)` — passing the
**TCP** connection `selfConn`, not `ws_connection` — before appending to
`closed`. -/
def bridgeSendPass (out : WsConnection → SendResult) (selfConn : TcpConnection)
    (data : List Nat) : List WsConnection → BridgeSendPass
  | [] => .done [] [] []
  | w :: rest =>
    match out w with
    | .ok =>
      match bridgeSendPass out selfConn data rest with
      | .done s c l => .done ((w, data) :: s) c l
      | .raised s => .raised ((w, data) :: s)
    | .connClosed code reason =>
      match handle_ws_connection_closed (.tcp selfConn) code reason with
      | .error _ => .raised []
      | .ok lg =>
        match bridgeSendPass out selfConn data rest with
        | .done s c l => .done s (w :: c) (lg :: l)
        | .raised s => .raised s

/-- How `forward_from_tcp` ends. -/
inductive BridgeExit where
  /-- empty read: `tcp_connections.remove(connection)`, info log,
  `return`. -/
  | cleanEof
  /-- `AttributeError` escaped the send loop: uncaught, no removal. -/
  | attrError
  /-- `data.decode('ascii')` raised: uncaught, no removal. -/
  | nonAscii
  deriving DecidableEq, Repr

/-- Final state of one `forward_from_tcp` coroutine. -/
structure BridgeResult where
  ws : List WsConnection
  tcp : List TcpConnection
  logs : List LogEvent
  sends : List (WsConnection × List Nat)
  exit : BridgeExit
  deriving DecidableEq, Repr

/-- `forward_from_tcp(connection, ws_connections, tcp_connections,
logger)`: read a chunk (empty ⇒ remove self from the TCP registry and
stop), decode as ASCII, send to every WebSocket connection with the
inline closed-handling loop, then remove the collected closed
connections.  `chunks` is the script of `reader.read` results. -/
def forward_from_tcp (out : Nat → WsConnection → SendResult)
    (conn : TcpConnection) (k : Nat) (ws : List WsConnection)
    (tcp : List TcpConnection) (logs : List LogEvent)
    (sends : List (WsConnection × List Nat)) : List (List Nat) → BridgeResult
  | [] =>
    { ws := ws, tcp := removeFirst tcp conn
      logs := logs ++ [.info ("TCP connection from " ++ conn.name ++ " closed")]
      sends := sends, exit := .cleanEof }
  | data :: rest =>
    if data = [] then
      { ws := ws, tcp := removeFirst tcp conn
        logs := logs ++ [.info ("TCP connection from " ++ conn.name ++ " closed")]
        sends := sends, exit := .cleanEof }
    else if allAscii data then
      match bridgeSendPass (out k) conn data ws with
      | .raised s =>
        { ws := ws, tcp := tcp
          logs := logs ++ [.debug "Forwarding to websocket connections"]
          sends := sends ++ s, exit := .attrError }
      | .done s c l =>
        forward_from_tcp out conn (k + 1) (removeAll ws c) tcp
          (logs ++ [.debug "Forwarding to websocket connections"] ++ l)
          (sends ++ s) rest
    else
      { ws := ws, tcp := tcp, logs := logs, sends := sends, exit := .nonAscii }

end GpglBridge

/-! ## `src/bridge.py` — older class-based bridge -/

namespace PlainBridge

/-- A TCP writer registered in `Bridge._tcp_writers`. -/
structure TcpWriter where
  id : Nat
  deriving DecidableEq, Repr

/-- A `(websocket, close_event)` pair in `Bridge._ws_clients`. -/
structure WsClient where
  id : Nat
  deriving DecidableEq, Repr

/-- Which `print` branch `Bridge._handle_ws_connection_closed` takes:
it compares the close code against `1000` only. -/
structure ClosedHandled where
  eventSet : Bool
  /-- `true` for the `'Websocket disconnected normally'` branch,
  `false` for the `'Websocket connection closed with code ...'` branch. -/
  normalBranch : Bool
  deriving DecidableEq, Repr

/-- `Bridge._handle_ws_connection_closed(e, close_event)`: sets the
event, then prints the normal message iff `e.code == 1000`. -/
def handle_ws_connection_closed (code : Nat) (_reason : String) : ClosedHandled :=
  { eventSet := true, normalBranch := code = 1000 }

/-- How `Bridge._forward_from_tcp_connection` ends. -/
inductive PBExit where
  | cleanEof
  | nonAscii
  deriving DecidableEq, Repr

/-- Final state of one `Bridge._forward_from_tcp_connection` coroutine. -/
structure PBResult where
  wsClients : List WsClient
  tcpWriters : List TcpWriter
  sends : List (WsClient × List Nat)
  exit : PBExit
  deriving DecidableEq, Repr

/-- The send loop of `_forward_from_tcp_connection` (lines 56-64): here
the handler is called with the correct `close_event` of the pair, so a
closed client is collected and removed after the loop. -/
def pbSendPass (out : WsClient → SendResult) (data : List Nat) :
    List WsClient → List (WsClient × List Nat) × List WsClient
  | [] => ([], [])
  | w :: rest =>
    match out w with
    | .ok =>
      ((w, data) :: (pbSendPass out data rest).1, (pbSendPass out data rest).2)
    | .connClosed _ _ =>
      ((pbSendPass out data rest).1, w :: (pbSendPass out data rest).2)

/-- `Bridge._forward_from_tcp_connection(reader, writer)`: plain-bridge
TCP→WS forwarder; empty read removes `writer` from `_tcp_writers`; each
non-empty chunk is ASCII-decoded (raises on a byte ≥ 128, leaving the
writer registered) and sent to all `_ws_clients`, removing those whose
send raised `ConnectionClosed`. -/
def forward_from_tcp_connection (out : Nat → WsClient → SendResult)
    (writer : TcpWriter) (k : Nat) (wsClients : List WsClient)
    (tcpWriters : List TcpWriter) (sends : List (WsClient × List Nat)) :
    List (List Nat) → PBResult
  | [] =>
    { wsClients := wsClients, tcpWriters := removeFirst tcpWriters writer
      sends := sends, exit := .cleanEof }
  | data :: rest =>
    if data = [] then
      { wsClients := wsClients, tcpWriters := removeFirst tcpWriters writer
        sends := sends, exit := .cleanEof }
    else if allAscii data then
      forward_from_tcp_connection out writer (k + 1)
        (removeAll wsClients (pbSendPass (out k) data wsClients).2) tcpWriters
        (sends ++ (pbSendPass (out k) data wsClients).1) rest
    else
      { wsClients := wsClients, tcpWriters := tcpWriters, sends := sends
        exit := .nonAscii }

end PlainBridge

/-! ## `src/send-svg.py` — one-shot job-frame client -/

namespace SendSvg

/-- The module body of `send-svg.py`: send the 36-character token, then
`struct.pack('>I', len(data))`, then the file bytes — one job frame. -/
def encodeFrame (token : List Nat) (payload : List Nat) : List Nat :=
  token ++ packBE4 payload.length ++ payload

end SendSvg

/-! ## Supporting lemmas -/

theorem readexactly_ok {n : Nat} {s t r : List Nat}
    (h : readexactly n s = .ok (t, r)) :
    t = s.take n ∧ r = s.drop n ∧ n ≤ s.length := by
  unfold readexactly at h
  split at h
  · injection h with h'
    injection h' with h1 h2
    exact ⟨h1.symm, h2.symm, by assumption⟩
  · cases h

theorem readexactly_error {n : Nat} {s p : List Nat}
    (h : readexactly n s = .error p) : p = s ∧ s.length < n := by
  unfold readexactly at h
  split at h
  · cases h
  · injection h with h'
    exact ⟨h'.symm, by omega⟩

theorem readexactly_all (n : Nat) (s r : List Nat) (h : s.length = n) :
    readexactly n (s ++ r) = .ok (s, r) := by
  unfold readexactly
  rw [if_pos (by simp [List.length_append]; omega)]
  subst h
  rw [List.take_left, List.drop_left]

theorem removeFirst_cons {α : Type} [DecidableEq α] (x z : α) (l : List α) :
    removeFirst (x :: l) z = if x = z then l else x :: removeFirst l z := rfl

theorem removeFirst_of_forall_ne {α : Type} [DecidableEq α] {x : α}
    {l : List α} (h : ∀ y ∈ l, y ≠ x) : removeFirst l x = l := by
  induction l with
  | nil => rfl
  | cons z zs ih =>
    rw [removeFirst_cons, if_neg (h z (List.mem_cons_self z zs))]
    rw [ih (fun y hy => h y (List.mem_cons_of_mem z hy))]

theorem removeAll_cons_of_forall_ne {α : Type} [DecidableEq α] {x : α}
    {l c : List α} (h : ∀ y ∈ c, y ≠ x) :
    removeAll (x :: l) c = x :: removeAll l c := by
  induction c generalizing l with
  | nil => rfl
  | cons z c' ih =>
    unfold removeAll at ih ⊢
    simp only [List.foldl_cons]
    have hzx : ¬(x = z) := fun he => (h z (List.mem_cons_self z c')) he.symm
    rw [removeFirst_cons, if_neg hzx]
    exact ih (fun y hy => h y (List.mem_cons_of_mem z hy))

theorem removeAll_filter {α : Type} [DecidableEq α] (l : List α)
    (p : α → Bool) : removeAll l (l.filter p) = l.filter (fun x => !(p x)) := by
  induction l with
  | nil => rfl
  | cons x xs ih =>
    by_cases hp : p x
    · rw [List.filter_cons_of_pos hp]
      unfold removeAll
      simp only [List.foldl_cons]
      rw [removeFirst_cons, if_pos rfl]
      rw [List.filter_cons_of_neg (by simp [hp])]
      exact ih
    · rw [List.filter_cons_of_neg (by simp [hp])]
      rw [removeAll_cons_of_forall_ne (fun y hy he => by
        subst he
        exact hp (List.of_mem_filter hy))]
      rw [List.filter_cons_of_pos (by simp [hp])]
      rw [ih]

theorem beU32_packBE4 (n : Nat) (h : n < 4294967296) : beU32 (packBE4 n) = n := by
  unfold beU32 packBE4
  simp only [List.foldl_cons, List.foldl_nil]
  omega

theorem packBE4_length (n : Nat) : (packBE4 n).length = 4 := rfl

namespace IoServer

theorem sendPass_eq (out : WsConnection → SendResult) (data : List Nat)
    (ws : List WsConnection) :
    sendPass out data ws =
      ((ws.filter (fun w => !(out w).isClosed)).map (fun w => (w, data)),
       ws.filter (fun w => (out w).isClosed),
       (ws.filter (fun w => (out w).isClosed)).map (fun w =>
         match out w with
         | .ok => .debug ""
         | .connClosed code reason =>
           (handle_ws_connection_closed w.name code reason).log)) := by
  induction ws with
  | nil => rfl
  | cons w rest ih =>
    unfold sendPass
    rw [ih]
    cases hw : out w with
    | ok =>
      simp only [List.filter_cons, SendResult.isClosed, hw]
      simp
    | connClosed code reason =>
      simp only [List.filter_cons, SendResult.isClosed, hw]
      simp [hw]

theorem try_write_to_all_eq (data : List Nat) (out : WsConnection → SendResult)
    (ws : List WsConnection) :
    try_write_to_all data out ws =
      { ws := ws.filter (fun w => !(out w).isClosed)
        sends := (ws.filter (fun w => !(out w).isClosed)).map (fun w => (w, data))
        logs := (ws.filter (fun w => (out w).isClosed)).map (fun w =>
          match out w with
          | .ok => .debug ""
          | .connClosed code reason =>
            (handle_ws_connection_closed w.name code reason).log) } := by
  unfold try_write_to_all
  rw [sendPass_eq]
  simp only
  rw [removeAll_filter]

theorem handle_emulator_eq_exit {conv : Nat → ConvOutcome}
    {out : Nat → WsConnection → SendResult} {conn : TcpConnection} {k : Nat}
    {ws : List WsConnection} {tcp : List TcpConnection} {logs : List LogEvent}
    {sends : List (WsConnection × List Nat)}
    {frames : List (List Nat × List Nat)} {s : List Nat} {r : EmuResult}
    (h : emuStep (conv k) (out k) conn ws tcp logs sends frames s = .exit r) :
    handle_emulator_tcp_connection conv out conn k ws tcp logs sends frames s = r := by
  rw [handle_emulator_tcp_connection]
  rw [h]

theorem handle_emulator_eq_next {conv : Nat → ConvOutcome}
    {out : Nat → WsConnection → SendResult} {conn : TcpConnection} {k : Nat}
    {ws ws' : List WsConnection} {tcp : List TcpConnection}
    {logs logs' : List LogEvent}
    {sends sends' : List (WsConnection × List Nat)}
    {frames frames' : List (List Nat × List Nat)} {s : List Nat}
    {rest : { l : List Nat // l.length < s.length }}
    (h : emuStep (conv k) (out k) conn ws tcp logs sends frames s =
      .next ws' logs' sends' frames' rest) :
    handle_emulator_tcp_connection conv out conn k ws tcp logs sends frames s =
      handle_emulator_tcp_connection conv out conn (k + 1) ws' tcp logs' sends'
        frames' rest.1 := by
  rw [handle_emulator_tcp_connection]
  rw [h]

theorem emuStep_nil (conv : ConvOutcome) (out : WsConnection → SendResult)
    (conn : TcpConnection) (ws : List WsConnection) (tcp : List TcpConnection)
    (logs : List LogEvent) (sends : List (WsConnection × List Nat))
    (frames : List (List Nat × List Nat)) :
    emuStep conv out conn ws tcp logs sends frames [] =
      .exit { ws := ws, tcp := removeFirst tcp conn
              logs := logs ++ [.debug ("TCP connection from " ++ conn.name ++
                " disconnected")]
              sends := sends, frames := frames, exit := .cleanEof } := rfl

theorem emuStep_shortToken {s : List Nat} (conv : ConvOutcome)
    (out : WsConnection → SendResult) (conn : TcpConnection)
    (ws : List WsConnection) (tcp : List TcpConnection) (logs : List LogEvent)
    (sends : List (WsConnection × List Nat))
    (frames : List (List Nat × List Nat))
    (h1 : 0 < s.length) (h2 : s.length < 36) :
    emuStep conv out conn ws tcp logs sends frames s =
      .exit { ws := ws, tcp := removeFirst tcp conn
              logs := logs ++ [.warning ("TCP connection " ++ conn.name ++
                " dropped while reading message")]
              sends := sends, frames := frames, exit := .partialFrame } := by
  unfold emuStep
  split
  · rename_i part h36
    obtain ⟨hp, -⟩ := readexactly_error h36
    rw [if_neg (by rw [hp]; omega : ¬(part.length = 0))]
  · rename_i token s1 h36
    obtain ⟨-, -, hlen⟩ := readexactly_ok h36
    omega

theorem emuStep_shortLen {s : List Nat} (conv : ConvOutcome)
    (out : WsConnection → SendResult) (conn : TcpConnection)
    (ws : List WsConnection) (tcp : List TcpConnection) (logs : List LogEvent)
    (sends : List (WsConnection × List Nat))
    (frames : List (List Nat × List Nat))
    (h1 : 36 ≤ s.length) (ha : allAscii (s.take 36) = true)
    (h2 : s.length < 40) :
    emuStep conv out conn ws tcp logs sends frames s =
      .exit { ws := ws, tcp := removeFirst tcp conn
              logs := logs ++ [.debug "Receiving SVG with UUID"] ++
                [.warning ("TCP connection " ++ conn.name ++
                  " dropped while reading message")]
              sends := sends, frames := frames, exit := .partialFrame } := by
  unfold emuStep
  split
  · rename_i part h36
    obtain ⟨-, hlt⟩ := readexactly_error h36
    exact absurd h1 (by omega)
  · rename_i token s1 h36
    obtain ⟨ht, hs1, -⟩ := readexactly_ok h36
    subst ht
    subst hs1
    rw [if_pos ha]
    split
    · rfl
    · rename_i lenBytes s2 h4
      obtain ⟨-, -, hl4⟩ := readexactly_ok h4
      simp only [List.length_drop] at hl4
      exact absurd hl4 (by omega)

theorem emuStep_shortPayload {s : List Nat} (conv : ConvOutcome)
    (out : WsConnection → SendResult) (conn : TcpConnection)
    (ws : List WsConnection) (tcp : List TcpConnection) (logs : List LogEvent)
    (sends : List (WsConnection × List Nat))
    (frames : List (List Nat × List Nat))
    (h1 : 40 ≤ s.length) (ha : allAscii (s.take 36) = true)
    (h2 : s.length < 40 + beU32 ((s.drop 36).take 4)) :
    emuStep conv out conn ws tcp logs sends frames s =
      .exit { ws := ws, tcp := removeFirst tcp conn
              logs := logs ++ [.debug "Receiving SVG with UUID"] ++
                [.warning ("TCP connection " ++ conn.name ++
                  " dropped while reading message")]
              sends := sends, frames := frames, exit := .partialFrame } := by
  unfold emuStep
  split
  · rename_i part h36
    obtain ⟨-, hlt⟩ := readexactly_error h36
    exact absurd h1 (by omega)
  · rename_i token s1 h36
    obtain ⟨ht, hs1, -⟩ := readexactly_ok h36
    subst ht
    subst hs1
    rw [if_pos ha]
    split
    · rename_i part h4
      obtain ⟨-, hl4⟩ := readexactly_error h4
      simp only [List.length_drop] at hl4
      exact absurd h1 (by omega)
    · rename_i lenBytes s2 h4
      obtain ⟨hlb, hs2, -⟩ := readexactly_ok h4
      subst hlb
      subst hs2
      split
      · rfl
      · rename_i svgBytes s3 hpp
        obtain ⟨-, -, hlp⟩ := readexactly_ok hpp
        simp only [List.length_drop] at hlp
        exact absurd hlp (by omega)

theorem emuStep_exit_tcp {conv : ConvOutcome} {out : WsConnection → SendResult}
    {conn : TcpConnection} {ws : List WsConnection} {tcp : List TcpConnection}
    {logs : List LogEvent} {sends : List (WsConnection × List Nat)}
    {frames : List (List Nat × List Nat)} {s : List Nat} {r : EmuResult}
    (h : emuStep conv out conn ws tcp logs sends frames s = .exit r) :
    r.tcp = (match r.exit with
      | .cleanEof => removeFirst tcp conn
      | .partialFrame => removeFirst tcp conn
      | .nonAsciiToken => tcp
      | .convRaised => tcp
      | .nonUtf8Output => tcp) := by
  unfold emuStep at h
  split at h
  · split at h
    · injection h with h'
      subst h'
      rfl
    · injection h with h'
      subst h'
      rfl
  · split at h
    · split at h
      · injection h with h'
        subst h'
        rfl
      · split at h
        · injection h with h'
          subst h'
          rfl
        · split at h
          · injection h with h'
            subst h'
            rfl
          · split at h
            · cases h
            · injection h with h'
              subst h'
              rfl
    · injection h with h'
      subst h'
      rfl

theorem handle_emulator_frame_completed (conv : Nat → ConvOutcome)
    (out : Nat → WsConnection → SendResult) (conn : TcpConnection) (k : Nat)
    (ws : List WsConnection) (tcp : List TcpConnection) (logs : List LogEvent)
    (sends : List (WsConnection × List Nat))
    (frames : List (List Nat × List Nat))
    (token payload rest errB outB : List Nat)
    (ht : token.length = 36) (ha : allAscii token = true)
    (hp : payload.length < 4294967296)
    (hc : conv k = .completed errB outB) (hu : validUtf8 outB = true) :
    handle_emulator_tcp_connection conv out conn k ws tcp logs sends frames
        (token ++ (packBE4 payload.length ++ (payload ++ rest))) =
      handle_emulator_tcp_connection conv out conn (k + 1)
        (try_write_to_all outB (out k) ws).ws tcp
        (logs ++ [.debug "Receiving SVG with UUID"] ++ [.debug "Converting SVG"] ++
          (if errB = [] then [] else [.warning "Errors from converter"]) ++
          [.debug "Converted SVG"] ++ [.debug "Forwarding converted GPGL"] ++
          (try_write_to_all outB (out k) ws).logs)
        (sends ++ (try_write_to_all outB (out k) ws).sends)
        (frames ++ [(token, payload)]) rest := by
  have h36 : readexactly 36 (token ++ (packBE4 payload.length ++ (payload ++ rest))) =
      .ok (token, packBE4 payload.length ++ (payload ++ rest)) :=
    readexactly_all 36 token _ ht
  have h4 : readexactly 4 (packBE4 payload.length ++ (payload ++ rest)) =
      .ok (packBE4 payload.length, payload ++ rest) :=
    readexactly_all 4 _ _ (packBE4_length _)
  have hpl : readexactly (beU32 (packBE4 payload.length)) (payload ++ rest) =
      .ok (payload, rest) := by
    rw [beU32_packBE4 _ hp]
    exact readexactly_all _ _ _ rfl
  have hlt : rest.length <
      (token ++ (packBE4 payload.length ++ (payload ++ rest))).length := by
    simp [List.length_append, packBE4_length, ht]
    omega
  have hstep : emuStep (conv k) (out k) conn ws tcp logs sends frames
      (token ++ (packBE4 payload.length ++ (payload ++ rest))) =
      .next (try_write_to_all outB (out k) ws).ws
        (logs ++ [.debug "Receiving SVG with UUID"] ++
          [.debug "Converting SVG"] ++
          (if errB = [] then [] else [.warning "Errors from converter"]) ++
          [.debug "Converted SVG"] ++ [.debug "Forwarding converted GPGL"] ++
          (try_write_to_all outB (out k) ws).logs)
        (sends ++ (try_write_to_all outB (out k) ws).sends)
        (frames ++ [(token, payload)]) ⟨rest, hlt⟩ := by
    rw [hc]
    unfold emuStep
    split
    · rename_i part h36'
      rw [h36] at h36'
      cases h36'
    · rename_i token' s1 h36'
      rw [h36] at h36'
      injection h36' with h''
      injection h'' with he1 he2
      subst he2
      subst he1
      rw [if_pos ha]
      split
      · rename_i part h4'
        rw [h4] at h4'
        cases h4'
      · rename_i lenBytes s2 h4'
        rw [h4] at h4'
        injection h4' with h''
        injection h'' with hf1 hf2
        subst hf2
        subst hf1
        split
        · rename_i part hpl'
          rw [hpl] at hpl'
          cases hpl'
        · rename_i svgBytes s3 hpl'
          rw [hpl] at hpl'
          injection hpl' with h''
          injection h'' with hg1 hg2
          subst hg2
          subst hg1
          simp only [convert_svg]
          rw [if_pos hu]
  exact handle_emulator_eq_next hstep

theorem handle_emulator_frame_raised (conv : Nat → ConvOutcome)
    (out : Nat → WsConnection → SendResult) (conn : TcpConnection) (k : Nat)
    (ws : List WsConnection) (tcp : List TcpConnection) (logs : List LogEvent)
    (sends : List (WsConnection × List Nat))
    (frames : List (List Nat × List Nat)) (token payload rest : List Nat)
    (ht : token.length = 36) (ha : allAscii token = true)
    (hp : payload.length < 4294967296) (hc : conv k = .raised) :
    handle_emulator_tcp_connection conv out conn k ws tcp logs sends frames
        (token ++ (packBE4 payload.length ++ (payload ++ rest))) =
      { ws := ws, tcp := tcp
        logs := logs ++ [.debug "Receiving SVG with UUID"] ++
          [.debug "Converting SVG"]
        sends := sends, frames := frames ++ [(token, payload)]
        exit := .convRaised } := by
  have h36 : readexactly 36 (token ++ (packBE4 payload.length ++ (payload ++ rest))) =
      .ok (token, packBE4 payload.length ++ (payload ++ rest)) :=
    readexactly_all 36 token _ ht
  have h4 : readexactly 4 (packBE4 payload.length ++ (payload ++ rest)) =
      .ok (packBE4 payload.length, payload ++ rest) :=
    readexactly_all 4 _ _ (packBE4_length _)
  have hpl : readexactly (beU32 (packBE4 payload.length)) (payload ++ rest) =
      .ok (payload, rest) := by
    rw [beU32_packBE4 _ hp]
    exact readexactly_all _ _ _ rfl
  apply handle_emulator_eq_exit
  rw [hc]
  unfold emuStep
  split
  · rename_i part h36'
    rw [h36] at h36'
    cases h36'
  · rename_i token' s1 h36'
    rw [h36] at h36'
    injection h36' with h''
    injection h'' with he1 he2
    subst he2
    subst he1
    rw [if_pos ha]
    split
    · rename_i part h4'
      rw [h4] at h4'
      cases h4'
    · rename_i lenBytes s2 h4'
      rw [h4] at h4'
      injection h4' with h''
      injection h'' with hf1 hf2
      subst hf2
      subst hf1
      split
      · rename_i part hpl'
        rw [hpl] at hpl'
        cases hpl'
      · rename_i svgBytes s3 hpl'
        rw [hpl] at hpl'
        injection hpl' with h''
        injection h'' with hg1 hg2
        subst hg2
        subst hg1
        rfl

theorem handle_emulator_nil (conv : Nat → ConvOutcome)
    (out : Nat → WsConnection → SendResult) (conn : TcpConnection) (k : Nat)
    (ws : List WsConnection) (tcp : List TcpConnection) (logs : List LogEvent)
    (sends : List (WsConnection × List Nat))
    (frames : List (List Nat × List Nat)) :
    handle_emulator_tcp_connection conv out conn k ws tcp logs sends frames [] =
      { ws := ws, tcp := removeFirst tcp conn
        logs := logs ++ [.debug ("TCP connection from " ++ conn.name ++
          " disconnected")]
        sends := sends, frames := frames, exit := .cleanEof } :=
  handle_emulator_eq_exit (emuStep_nil (conv k) (out k) conn ws tcp logs sends frames)

theorem handle_emulator_tcp_characterization (conv : Nat → ConvOutcome)
    (out : Nat → WsConnection → SendResult) (conn : TcpConnection) :
    ∀ (n : Nat) (s : List Nat), s.length < n →
      ∀ (k : Nat) (ws : List WsConnection) (tcp : List TcpConnection)
        (logs : List LogEvent) (sends : List (WsConnection × List Nat))
        (frames : List (List Nat × List Nat)),
      (handle_emulator_tcp_connection conv out conn k ws tcp logs sends frames s).tcp =
        (match (handle_emulator_tcp_connection conv out conn k ws tcp logs sends
            frames s).exit with
          | .cleanEof => removeFirst tcp conn
          | .partialFrame => removeFirst tcp conn
          | .nonAsciiToken => tcp
          | .convRaised => tcp
          | .nonUtf8Output => tcp) := by
  intro n
  induction n with
  | zero =>
    intro s h
    omega
  | succ m ih =>
    intro s hs k ws tcp logs sends frames
    cases hstep : emuStep (conv k) (out k) conn ws tcp logs sends frames s with
    | exit r =>
      rw [handle_emulator_eq_exit hstep]
      exact emuStep_exit_tcp hstep
    | next ws' logs' sends' frames' rest =>
      rw [handle_emulator_eq_next hstep]
      exact ih rest.1 (by have h2 := rest.2; omega) (k + 1) ws' tcp logs' sends'
        frames'

theorem handle_websocket_data_msgs (conn : WsConnection)
    (tcpAt : Nat → List TcpConnection) :
    ∀ (msgs : List (List Nat)) (k : Nat) (ws : List WsConnection)
      (logs : List LogEvent) (writes : List (TcpConnection × Nat × List Nat)),
      handle_websocket_data conn tcpAt k ws logs writes (msgs.map .msg) =
        { ws := ws, writes := writes ++ messageBlocks tcpAt k msgs
          logs := logs ++ List.replicate msgs.length
            (.debug "Sending data from debugger website to TCP connections")
          exit := .pending } := by
  intro msgs
  induction msgs with
  | nil =>
    intro k ws logs writes
    simp [handle_websocket_data, messageBlocks]
  | cons data rest ih =>
    intro k ws logs writes
    simp only [List.map_cons]
    unfold handle_websocket_data
    rw [ih]
    simp [messageBlocks, List.replicate_succ]

theorem messageBlocks_idx_ge (tcpAt : Nat → List TcpConnection) :
    ∀ (msgs : List (List Nat)) (k : Nat) (x : TcpConnection × Nat × List Nat),
      x ∈ messageBlocks tcpAt k msgs → k ≤ x.2.1 := by
  intro msgs
  induction msgs with
  | nil =>
    intro k x hx
    cases hx
  | cons data rest ih =>
    intro k x hx
    unfold messageBlocks at hx
    rw [List.mem_append] at hx
    cases hx with
    | inl h =>
      obtain ⟨t, -, ht⟩ := List.mem_map.1 h
      subst ht
      exact le_refl k
    | inr h =>
      have := ih (k + 1) x h
      omega

theorem messageBlocks_pairwise (tcpAt : Nat → List TcpConnection) :
    ∀ (msgs : List (List Nat)) (k : Nat),
      List.Pairwise (fun a b => a.2.1 ≤ b.2.1) (messageBlocks tcpAt k msgs) := by
  intro msgs
  induction msgs with
  | nil =>
    intro k
    exact List.Pairwise.nil
  | cons data rest ih =>
    intro k
    unfold messageBlocks
    rw [List.pairwise_append]
    refine ⟨?_, ih (k + 1), ?_⟩
    · rw [List.pairwise_map]
      have triv : ∀ (l : List TcpConnection),
          List.Pairwise (fun (_ _ : TcpConnection) => k ≤ k) l := by
        intro l
        induction l with
        | nil => exact List.Pairwise.nil
        | cons a t iht => exact List.Pairwise.cons (fun b _ => le_refl k) iht
      exact triv (tcpAt k)
    · intro a ha b hb
      obtain ⟨t, -, ht⟩ := List.mem_map.1 ha
      subst ht
      have hge := messageBlocks_idx_ge tcpAt rest (k + 1) b hb
      show k ≤ b.2.1
      omega

theorem messageBlocks_mem (tcpAt : Nat → List TcpConnection) :
    ∀ (msgs : List (List Nat)) (k j : Nat) (d : List Nat)
      (t : TcpConnection), msgs.get? j = some d → t ∈ tcpAt (k + j) →
      (t, k + j, d) ∈ messageBlocks tcpAt k msgs := by
  intro msgs
  induction msgs with
  | nil =>
    intro k j d t hj
    cases hj
  | cons data rest ih =>
    intro k j d t hj ht
    unfold messageBlocks
    rw [List.mem_append]
    cases j with
    | zero =>
      left
      have hd : data = d := by
        simpa using hj
      subst hd
      simpa using List.mem_map_of_mem (fun u => (u, k, data)) ht
    | succ j' =>
      right
      have hj2 : rest.get? j' = some d := by
        simpa using hj
      have hres := ih (k + 1) j' d t hj2 (by
        rw [show k + 1 + j' = k + (j' + 1) by omega]
        exact ht)
      rw [show k + (j' + 1) = k + 1 + j' by omega]
      exact hres

theorem messageBlocks_target_registered (tcpAt : Nat → List TcpConnection) :
    ∀ (msgs : List (List Nat)) (k : Nat) (x : TcpConnection × Nat × List Nat),
      x ∈ messageBlocks tcpAt k msgs → x.1 ∈ tcpAt x.2.1 := by
  intro msgs
  induction msgs with
  | nil =>
    intro k x hx
    cases hx
  | cons data rest ih =>
    intro k x hx
    unfold messageBlocks at hx
    rw [List.mem_append] at hx
    cases hx with
    | inl h =>
      obtain ⟨t, hmem, ht⟩ := List.mem_map.1 h
      subst ht
      exact hmem
    | inr h => exact ih (k + 1) x h

theorem handle_websocket_data_writes_registered (conn : WsConnection)
    (tcpAt : Nat → List TcpConnection) :
    ∀ (events : List WsEvent) (k : Nat) (ws : List WsConnection)
      (logs : List LogEvent) (writes : List (TcpConnection × Nat × List Nat))
      (x : TcpConnection × Nat × List Nat),
      x ∈ (handle_websocket_data conn tcpAt k ws logs writes events).writes →
      x ∈ writes ∨ x.1 ∈ tcpAt x.2.1 := by
  intro events
  induction events with
  | nil =>
    intro k ws logs writes x hx
    exact Or.inl hx
  | cons e rest ih =>
    intro k ws logs writes x hx
    cases e with
    | closedErr code reason =>
      unfold handle_websocket_data at hx
      cases hpr : pyRemove ws conn with
      | error u =>
        rw [hpr] at hx
        exact Or.inl hx
      | ok ws' =>
        rw [hpr] at hx
        exact Or.inl hx
    | msg data =>
      unfold handle_websocket_data at hx
      rcases ih (k + 1) ws _ _ x hx with h | h
      · rw [List.mem_append] at h
        cases h with
        | inl h' => exact Or.inl h'
        | inr h' =>
          obtain ⟨t, hmem, ht⟩ := List.mem_map.1 h'
          subst ht
          exact Or.inr hmem
      · exact Or.inr h

theorem handle_raw_ws_subset (out : Nat → WsConnection → SendResult)
    (conn : TcpConnection) :
    ∀ (chunks : List (List Nat)) (k : Nat) (ws : List WsConnection)
      (logs : List LogEvent) (sends : List (WsConnection × List Nat)),
      ((handle_raw_gpgl_tcp_connection out conn k ws logs sends chunks).ws ⊆ ws) ∧
      (∀ w ∈ ws,
        w ∉ (handle_raw_gpgl_tcp_connection out conn k ws logs sends chunks).ws →
        ∃ k' code reason, out k' w = .connClosed code reason) := by
  intro chunks
  induction chunks with
  | nil =>
    intro k ws logs sends
    exact ⟨fun x hx => hx, fun w hw hniw => absurd hw hniw⟩
  | cons data rest ih =>
    intro k ws logs sends
    unfold handle_raw_gpgl_tcp_connection
    split
    · exact ⟨fun x hx => hx, fun w hw hniw => absurd hw hniw⟩
    · split
      · rw [try_write_to_all_eq]
        simp only
        obtain ⟨ihsub, ihdrop⟩ := ih (k + 1)
          (ws.filter (fun w => !(out k w).isClosed)) (logs ++
            [.debug "Forwarding raw GPGL"] ++
            ((ws.filter (fun w => (out k w).isClosed)).map (fun w =>
              match out k w with
              | .ok => .debug ""
              | .connClosed code reason =>
                (handle_ws_connection_closed w.name code reason).log)))
          (sends ++ (ws.filter (fun w => !(out k w).isClosed)).map
            (fun w => (w, data)))
        constructor
        · intro x hx
          exact List.mem_of_mem_filter (ihsub hx)
        · intro w hw hniw
          by_cases hwf : w ∈ ws.filter (fun w => !(out k w).isClosed)
          · exact ihdrop w hwf hniw
          · have : ¬((fun w => !(out k w).isClosed) w = true) := by
              intro hc
              exact hwf (List.mem_filter.2 ⟨hw, hc⟩)
            simp only [Bool.not_eq_true, Bool.not_eq_false] at this
            cases hout : out k w with
            | ok =>
              rw [hout] at this
              cases this
            | connClosed code reason => exact ⟨k, code, reason, hout⟩
      · exact ⟨fun x hx => hx, fun w hw hniw => absurd hw hniw⟩

end IoServer

namespace GpglBridge

theorem forward_from_tcp_tcp_characterization
    (out : Nat → WsConnection → SendResult) (conn : TcpConnection) :
    ∀ (chunks : List (List Nat)) (k : Nat) (ws : List WsConnection)
      (tcp : List TcpConnection) (logs : List LogEvent)
      (sends : List (WsConnection × List Nat)),
      (forward_from_tcp out conn k ws tcp logs sends chunks).tcp =
        (match (forward_from_tcp out conn k ws tcp logs sends chunks).exit with
          | .cleanEof => removeFirst tcp conn
          | .attrError => tcp
          | .nonAscii => tcp) := by
  intro chunks
  induction chunks with
  | nil =>
    intro k ws tcp logs sends
    rfl
  | cons data rest ih =>
    intro k ws tcp logs sends
    unfold forward_from_tcp
    split
    · rfl
    · split
      · split
        · rfl
        · exact ih (k + 1) _ tcp _ _
      · rfl

end GpglBridge

/-! ## Claim theorems -/

/-- C1: the claim states that a `ConnectionClosed` send failure during a
broadcast never prevents delivery to subsequent connections, removes the
failed connection (and only it), and never aborts or raises out of the
forwarder.  In `gpgl_input/bridge.py` this fails: `forward_from_tcp`
passes its own **TCP** connection to `handle_ws_connection_closed`
(line 106), whose `connection.close_event.set()` raises `AttributeError`
(a `TcpConnection` has no `close_event`).  Concretely, with WebSocket
registry `[w1, w2]` and `w1`'s send raising `ConnectionClosed`, the
forwarder aborts with the attribute error: `w2` never receives the
payload (no send recorded), `w1` is not removed, and the TCP connection
also stays registered. -/
theorem C1_bridge_send_failure_aborts_broadcast :
    GpglBridge.forward_from_tcp
      (fun _ w => if w.name = "w1" then .connClosed 1000 "" else .ok)
      ⟨"tcp"⟩ 0 [⟨"w1"⟩, ⟨"w2"⟩] [⟨"tcp"⟩] [] [] [[80, 85]] =
      { ws := [⟨"w1"⟩, ⟨"w2"⟩], tcp := [⟨"tcp"⟩]
        logs := [.debug "Forwarding to websocket connections"]
        sends := [], exit := .attrError } := by
  decide

/-- C2 counterexample: the claim asserts that, once token bytes have been
read, any short read during the length field is logged as a warning and
removes the connection.  A stream consisting of exactly 36 non-ASCII
token bytes (then EOF, i.e. a short read of the length field) instead
raises an uncaught `UnicodeDecodeError` at the
`svg_uuid.decode('ascii')` debug call: no warning is logged and the
connection stays in the emulator TCP registry. -/
theorem C2_counterexample_nonascii_token :
    IoServer.handle_emulator_tcp_connection (fun _ => .completed [] [])
      (fun _ _ => .ok) ⟨"c"⟩ 0 [] [⟨"c"⟩] [] [] [] (List.replicate 36 200) =
      { ws := [], tcp := [⟨"c"⟩], logs := [], sends := [], frames := []
        exit := .nonAsciiToken } :=
  IoServer.handle_emulator_eq_exit rfl

/-- C2 (amended): in job mode, provided the 36 token bytes are ASCII, the
reader behaves as the claim states: a close before any token byte is a
clean end-of-stream (debug log only, connection removed); a close after
at least one token byte, or a short read during the 4-byte big-endian
length field or the length-many payload bytes, is logged as a warning
and terminates only that connection, with removal, never the server
(the handler returns instead of propagating).  A non-ASCII token instead
raises an uncaught decode error (see the counterexample). -/
theorem C2_job_reader_close_classification (conv : Nat → IoServer.ConvOutcome)
    (out : Nat → IoServer.WsConnection → SendResult)
    (conn : IoServer.TcpConnection) (k : Nat) (ws : List IoServer.WsConnection)
    (tcp : List IoServer.TcpConnection) (logs : List LogEvent)
    (sends : List (IoServer.WsConnection × List Nat))
    (frames : List (List Nat × List Nat)) (s : List Nat) :
    (s.length = 0 →
      IoServer.handle_emulator_tcp_connection conv out conn k ws tcp logs sends
          frames s =
        { ws := ws, tcp := removeFirst tcp conn
          logs := logs ++ [.debug ("TCP connection from " ++ conn.name ++
            " disconnected")]
          sends := sends, frames := frames, exit := .cleanEof })
    ∧ (0 < s.length → s.length < 36 →
      IoServer.handle_emulator_tcp_connection conv out conn k ws tcp logs sends
          frames s =
        { ws := ws, tcp := removeFirst tcp conn
          logs := logs ++ [.warning ("TCP connection " ++ conn.name ++
            " dropped while reading message")]
          sends := sends, frames := frames, exit := .partialFrame })
    ∧ (36 ≤ s.length → allAscii (s.take 36) = true → s.length < 40 →
      IoServer.handle_emulator_tcp_connection conv out conn k ws tcp logs sends
          frames s =
        { ws := ws, tcp := removeFirst tcp conn
          logs := logs ++ [.debug "Receiving SVG with UUID"] ++
            [.warning ("TCP connection " ++ conn.name ++
              " dropped while reading message")]
          sends := sends, frames := frames, exit := .partialFrame })
    ∧ (40 ≤ s.length → allAscii (s.take 36) = true →
        s.length < 40 + beU32 ((s.drop 36).take 4) →
      IoServer.handle_emulator_tcp_connection conv out conn k ws tcp logs sends
          frames s =
        { ws := ws, tcp := removeFirst tcp conn
          logs := logs ++ [.debug "Receiving SVG with UUID"] ++
            [.warning ("TCP connection " ++ conn.name ++
              " dropped while reading message")]
          sends := sends, frames := frames, exit := .partialFrame }) := by
  refine ⟨?_, ?_, ?_, ?_⟩
  · intro h0
    have hs : s = [] := List.eq_nil_of_length_eq_zero h0
    subst hs
    exact IoServer.handle_emulator_nil conv out conn k ws tcp logs sends frames
  · intro h1 h2
    exact IoServer.handle_emulator_eq_exit
      (IoServer.emuStep_shortToken (conv k) (out k) conn ws tcp logs sends
        frames h1 h2)
  · intro h1 ha h2
    exact IoServer.handle_emulator_eq_exit
      (IoServer.emuStep_shortLen (conv k) (out k) conn ws tcp logs sends
        frames h1 ha h2)
  · intro h1 ha h2
    exact IoServer.handle_emulator_eq_exit
      (IoServer.emuStep_shortPayload (conv k) (out k) conn ws tcp logs sends
        frames h1 ha h2)

/-- Witness for C2 (amended): the four close scenarios at concrete
streams — immediate EOF, one token byte, a full ASCII token with one
length byte, and a full header announcing 5 payload bytes of which only
2 arrive. -/
theorem C2_job_reader_close_classification_witness :
    (IoServer.handle_emulator_tcp_connection (fun _ => .completed [] [])
        (fun _ _ => .ok) ⟨"c"⟩ 0 [] [⟨"c"⟩] [] [] [] []).exit = .cleanEof
    ∧ (IoServer.handle_emulator_tcp_connection (fun _ => .completed [] [])
        (fun _ _ => .ok) ⟨"c"⟩ 0 [] [⟨"c"⟩] [] [] [] [65]).exit = .partialFrame
    ∧ (IoServer.handle_emulator_tcp_connection (fun _ => .completed [] [])
        (fun _ _ => .ok) ⟨"c"⟩ 0 [] [⟨"c"⟩] [] [] []
        (List.replicate 36 65 ++ [0])).exit = .partialFrame
    ∧ (IoServer.handle_emulator_tcp_connection (fun _ => .completed [] [])
        (fun _ _ => .ok) ⟨"c"⟩ 0 [] [⟨"c"⟩] [] [] []
        (List.replicate 36 65 ++ [0, 0, 0, 5, 1, 2])).exit = .partialFrame := by
  refine ⟨?_, ?_, ?_, ?_⟩
  · rw [(C2_job_reader_close_classification (fun _ => .completed [] [])
      (fun _ _ => .ok) ⟨"c"⟩ 0 [] [⟨"c"⟩] [] [] [] []).1 rfl]
  · rw [(C2_job_reader_close_classification (fun _ => .completed [] [])
      (fun _ _ => .ok) ⟨"c"⟩ 0 [] [⟨"c"⟩] [] [] [] [65]).2.1 (by decide)
      (by decide)]
  · rw [(C2_job_reader_close_classification (fun _ => .completed [] [])
      (fun _ _ => .ok) ⟨"c"⟩ 0 [] [⟨"c"⟩] [] [] []
      (List.replicate 36 65 ++ [0])).2.2.1 (by decide) (by decide) (by decide)]
  · rw [(C2_job_reader_close_classification (fun _ => .completed [] [])
      (fun _ _ => .ok) ⟨"c"⟩ 0 [] [⟨"c"⟩] [] [] []
      (List.replicate 36 65 ++ [0, 0, 0, 5, 1, 2])).2.2.2 (by decide)
      (by decide) (by decide)]

/-- C3 counterexample: the claim states that every conversion dispatch
failure (including a missing/unreadable converter executable, which
makes `subprocess.run` raise) leaves the connection's loop able to read
the next frame and does not leave it lingering in the registry.  On a
raising dispatch the exception propagates out of
`handle_emulator_tcp_connection` past the `IncompleteReadError` handler:
the loop ends and the connection stays in the emulator TCP registry. -/
theorem C3_counterexample_conv_raise :
    IoServer.handle_emulator_tcp_connection (fun _ => .raised) (fun _ _ => .ok)
      ⟨"c"⟩ 0 [] [⟨"c"⟩] [] [] [] (List.replicate 36 65 ++ [0, 0, 0, 1, 7]) =
      { ws := [], tcp := [⟨"c"⟩]
        logs := [.debug "Receiving SVG with UUID", .debug "Converting SVG"]
        sends := [], frames := [(List.replicate 36 65, [7])]
        exit := .convRaised } :=
  IoServer.handle_emulator_eq_exit rfl

/-- C3 (amended): a converter process failure that completes with
non-empty stderr is logged as a warning and the owning loop continues —
it reads the next frame and is removed from the registry at the eventual
clean EOF; but a dispatch that raises (e.g. missing or unreadable
converter executable) propagates, ending the loop with the connection
still registered. -/
theorem C3_conversion_dispatch_failure :
    (∀ (conv : Nat → IoServer.ConvOutcome)
      (out : Nat → IoServer.WsConnection → SendResult)
      (conn : IoServer.TcpConnection) (k : Nat)
      (ws : List IoServer.WsConnection) (tcp : List IoServer.TcpConnection)
      (logs : List LogEvent) (sends : List (IoServer.WsConnection × List Nat))
      (frames : List (List Nat × List Nat)) (t1 p1 t2 p2 e1 o1 e2 o2 : List Nat),
      t1.length = 36 → allAscii t1 = true → p1.length < 4294967296 →
      t2.length = 36 → allAscii t2 = true → p2.length < 4294967296 →
      conv k = .completed e1 o1 → e1 ≠ [] → validUtf8 o1 = true →
      conv (k + 1) = .completed e2 o2 → validUtf8 o2 = true →
      (IoServer.handle_emulator_tcp_connection conv out conn k ws tcp logs sends
          frames
          (SendSvg.encodeFrame t1 p1 ++ SendSvg.encodeFrame t2 p2)).frames =
        frames ++ [(t1, p1), (t2, p2)]
      ∧ (IoServer.handle_emulator_tcp_connection conv out conn k ws tcp logs
          sends frames
          (SendSvg.encodeFrame t1 p1 ++ SendSvg.encodeFrame t2 p2)).exit =
        .cleanEof
      ∧ (IoServer.handle_emulator_tcp_connection conv out conn k ws tcp logs
          sends frames
          (SendSvg.encodeFrame t1 p1 ++ SendSvg.encodeFrame t2 p2)).tcp =
        removeFirst tcp conn
      ∧ LogEvent.warning "Errors from converter" ∈
        (IoServer.handle_emulator_tcp_connection conv out conn k ws tcp logs
          sends frames
          (SendSvg.encodeFrame t1 p1 ++ SendSvg.encodeFrame t2 p2)).logs)
    ∧ (∀ (conv : Nat → IoServer.ConvOutcome)
      (out : Nat → IoServer.WsConnection → SendResult)
      (conn : IoServer.TcpConnection) (k : Nat)
      (ws : List IoServer.WsConnection) (tcp : List IoServer.TcpConnection)
      (logs : List LogEvent) (sends : List (IoServer.WsConnection × List Nat))
      (frames : List (List Nat × List Nat)) (t p : List Nat),
      t.length = 36 → allAscii t = true → p.length < 4294967296 →
      conv k = .raised →
      IoServer.handle_emulator_tcp_connection conv out conn k ws tcp logs sends
          frames (SendSvg.encodeFrame t p) =
        { ws := ws, tcp := tcp
          logs := logs ++ [.debug "Receiving SVG with UUID"] ++
            [.debug "Converting SVG"]
          sends := sends, frames := frames ++ [(t, p)]
          exit := .convRaised }) := by
  constructor
  · intro conv out conn k ws tcp logs sends frames t1 p1 t2 p2 e1 o1 e2 o2
      ht1 ha1 hp1 ht2 ha2 hp2 hc1 he1 hu1 hc2 hu2
    rw [show SendSvg.encodeFrame t1 p1 ++ SendSvg.encodeFrame t2 p2 =
      t1 ++ (packBE4 p1.length ++ (p1 ++
        (t2 ++ (packBE4 p2.length ++ (p2 ++ []))))) by
      simp [SendSvg.encodeFrame]]
    rw [IoServer.handle_emulator_frame_completed conv out conn k ws tcp logs
      sends frames t1 p1 _ e1 o1 ht1 ha1 hp1 hc1 hu1]
    rw [IoServer.handle_emulator_frame_completed conv out conn (k + 1) _ tcp _
      _ _ t2 p2 [] e2 o2 ht2 ha2 hp2 hc2 hu2]
    rw [IoServer.handle_emulator_nil]
    refine ⟨by simp, rfl, rfl, ?_⟩
    simp [he1]
  · intro conv out conn k ws tcp logs sends frames t p ht ha hp hc
    rw [show SendSvg.encodeFrame t p =
      t ++ (packBE4 p.length ++ (p ++ [])) by simp [SendSvg.encodeFrame]]
    exact IoServer.handle_emulator_frame_raised conv out conn k ws tcp logs
      sends frames t p [] ht ha hp hc

/-- Witness for C3 (amended): a job whose converter reports on stderr is
followed by a second job that is still processed and a clean EOF; a
raising dispatch ends the loop with the connection still registered. -/
theorem C3_conversion_dispatch_failure_witness :
    ((IoServer.handle_emulator_tcp_connection
        (fun i => if i = 0 then .completed [5] [] else .completed [] [])
        (fun _ _ => .ok) ⟨"c"⟩ 0 [] [⟨"c"⟩] [] [] []
        (SendSvg.encodeFrame (List.replicate 36 65) [1] ++
          SendSvg.encodeFrame (List.replicate 36 66) [])).frames =
      [] ++ [(List.replicate 36 65, [1]), (List.replicate 36 66, [])]
    ∧ (IoServer.handle_emulator_tcp_connection
        (fun i => if i = 0 then .completed [5] [] else .completed [] [])
        (fun _ _ => .ok) ⟨"c"⟩ 0 [] [⟨"c"⟩] [] [] []
        (SendSvg.encodeFrame (List.replicate 36 65) [1] ++
          SendSvg.encodeFrame (List.replicate 36 66) [])).exit = .cleanEof
    ∧ (IoServer.handle_emulator_tcp_connection
        (fun i => if i = 0 then .completed [5] [] else .completed [] [])
        (fun _ _ => .ok) ⟨"c"⟩ 0 [] [⟨"c"⟩] [] [] []
        (SendSvg.encodeFrame (List.replicate 36 65) [1] ++
          SendSvg.encodeFrame (List.replicate 36 66) [])).tcp =
      removeFirst [⟨"c"⟩] ⟨"c"⟩
    ∧ LogEvent.warning "Errors from converter" ∈
      (IoServer.handle_emulator_tcp_connection
        (fun i => if i = 0 then .completed [5] [] else .completed [] [])
        (fun _ _ => .ok) ⟨"c"⟩ 0 [] [⟨"c"⟩] [] [] []
        (SendSvg.encodeFrame (List.replicate 36 65) [1] ++
          SendSvg.encodeFrame (List.replicate 36 66) [])).logs)
    ∧ IoServer.handle_emulator_tcp_connection (fun _ => .raised)
        (fun _ _ => .ok) ⟨"c"⟩ 0 [] [⟨"c"⟩] [] [] []
        (SendSvg.encodeFrame (List.replicate 36 65) [1]) =
      { ws := [], tcp := [⟨"c"⟩]
        logs := [] ++ [.debug "Receiving SVG with UUID"] ++
          [.debug "Converting SVG"]
        sends := [], frames := [] ++ [(List.replicate 36 65, [1])]
        exit := .convRaised } := by
  constructor
  · exact C3_conversion_dispatch_failure.1
      (fun i => if i = 0 then .completed [5] [] else .completed [] [])
      (fun _ _ => .ok) ⟨"c"⟩ 0 [] [⟨"c"⟩] [] [] []
      (List.replicate 36 65) [1] (List.replicate 36 66) [] [5] [] [] []
      (by decide) (by decide) (by decide) (by decide) (by decide) (by decide)
      rfl (by decide) rfl rfl rfl
  · exact C3_conversion_dispatch_failure.2 (fun _ => .raised) (fun _ _ => .ok)
      ⟨"c"⟩ 0 [] [⟨"c"⟩] [] [] [] (List.replicate 36 65) [1]
      (by decide) (by decide) (by decide) rfl

/-- C4 counterexample: the claim asserts that for every way a forwarder
loop can exit — including "any other exception" — the connection is no
longer in its registry afterwards.  A raw chunk containing byte 200
makes `data.decode('ascii')` raise in the gpgl bridge's
`forward_from_tcp`; the loop exits without reaching any removal and the
connection is still in the TCP registry. -/
theorem C4_counterexample_exception_exit_leaves_connection :
    GpglBridge.forward_from_tcp (fun _ _ => .ok) ⟨"t"⟩ 0 [] [⟨"t"⟩] [] []
      [[200]] =
      { ws := [], tcp := [⟨"t"⟩], logs := [], sends := []
        exit := .nonAscii } := by
  decide

/-- C4 (amended): the two TCP-side forwarder loops remove their
connection from its registry exactly on the exits the source handles —
clean EOF and (for the job loop) a partial frame — and leave it
registered on every exit caused by an uncaught exception (non-ASCII
decode, raising conversion dispatch, non-UTF-8 converter output, the
bridge's `AttributeError` during broadcast). -/
theorem C4_registry_after_loop_exit :
    (∀ (conv : Nat → IoServer.ConvOutcome)
      (out : Nat → IoServer.WsConnection → SendResult)
      (conn : IoServer.TcpConnection) (k : Nat)
      (ws : List IoServer.WsConnection) (tcp : List IoServer.TcpConnection)
      (logs : List LogEvent) (sends : List (IoServer.WsConnection × List Nat))
      (frames : List (List Nat × List Nat)) (s : List Nat),
      (IoServer.handle_emulator_tcp_connection conv out conn k ws tcp logs
        sends frames s).tcp =
        (match (IoServer.handle_emulator_tcp_connection conv out conn k ws tcp
            logs sends frames s).exit with
          | .cleanEof => removeFirst tcp conn
          | .partialFrame => removeFirst tcp conn
          | .nonAsciiToken => tcp
          | .convRaised => tcp
          | .nonUtf8Output => tcp))
    ∧ (∀ (out : Nat → GpglBridge.WsConnection → SendResult)
      (conn : GpglBridge.TcpConnection) (chunks : List (List Nat)) (k : Nat)
      (ws : List GpglBridge.WsConnection) (tcp : List GpglBridge.TcpConnection)
      (logs : List LogEvent) (sends : List (GpglBridge.WsConnection × List Nat)),
      (GpglBridge.forward_from_tcp out conn k ws tcp logs sends chunks).tcp =
        (match (GpglBridge.forward_from_tcp out conn k ws tcp logs sends
            chunks).exit with
          | .cleanEof => removeFirst tcp conn
          | .attrError => tcp
          | .nonAscii => tcp)) := by
  constructor
  · intro conv out conn k ws tcp logs sends frames s
    exact IoServer.handle_emulator_tcp_characterization conv out conn
      (s.length + 1) s (by omega) k ws tcp logs sends frames
  · intro out conn chunks k ws tcp logs sends
    exact GpglBridge.forward_from_tcp_tcp_characterization out conn chunks k
      ws tcp logs sends

/-- C5: job-frame round trip.  Encoding a 36-byte ASCII token and a
payload (any length below 2^32, so in particular 0, 1 and 2^20) as
token bytes, 4-byte big-endian length, payload — exactly what
`send-svg.py` emits — and feeding the stream to the job-mode reader
reconstructs exactly the original token and payload as the single
received frame, followed by a clean EOF. -/
theorem C5_job_frame_roundtrip (conv : Nat → IoServer.ConvOutcome)
    (out : Nat → IoServer.WsConnection → SendResult)
    (conn : IoServer.TcpConnection) (k : Nat) (ws : List IoServer.WsConnection)
    (tcp : List IoServer.TcpConnection) (logs : List LogEvent)
    (sends : List (IoServer.WsConnection × List Nat))
    (frames : List (List Nat × List Nat)) (t p errB outB : List Nat)
    (ht : t.length = 36) (ha : allAscii t = true) (hp : p.length < 4294967296)
    (hc : conv k = .completed errB outB) (hu : validUtf8 outB = true) :
    (IoServer.handle_emulator_tcp_connection conv out conn k ws tcp logs sends
        frames (SendSvg.encodeFrame t p)).frames = frames ++ [(t, p)]
    ∧ (IoServer.handle_emulator_tcp_connection conv out conn k ws tcp logs
        sends frames (SendSvg.encodeFrame t p)).exit = .cleanEof := by
  rw [show SendSvg.encodeFrame t p =
    t ++ (packBE4 p.length ++ (p ++ [])) by simp [SendSvg.encodeFrame]]
  rw [IoServer.handle_emulator_frame_completed conv out conn k ws tcp logs
    sends frames t p [] errB outB ht ha hp hc hu]
  rw [IoServer.handle_emulator_nil]
  exact ⟨rfl, rfl⟩

/-- Witness for C5: a concrete frame — token `"A"*36`, payload `[104]` —
decodes back to itself. -/
theorem C5_job_frame_roundtrip_witness :
    (IoServer.handle_emulator_tcp_connection (fun _ => .completed [] [71])
        (fun _ _ => .ok) ⟨"c"⟩ 0 [] [⟨"c"⟩] [] [] []
        (SendSvg.encodeFrame (List.replicate 36 65) [104])).frames =
      [] ++ [(List.replicate 36 65, [104])]
    ∧ (IoServer.handle_emulator_tcp_connection (fun _ => .completed [] [71])
        (fun _ _ => .ok) ⟨"c"⟩ 0 [] [⟨"c"⟩] [] [] []
        (SendSvg.encodeFrame (List.replicate 36 65) [104])).exit =
      .cleanEof :=
  C5_job_frame_roundtrip (fun _ => .completed [] [71]) (fun _ _ => .ok) ⟨"c"⟩
    0 [] [⟨"c"⟩] [] [] [] (List.replicate 36 65) [104] [] [71]
    (by decide) (by decide) (by decide) rfl (by decide)

/-- C6 counterexample: the claim says every cited close handler logs
codes 1000 and 1001 at informational level.  `Bridge._handle_ws_connection_closed`
in `src/bridge.py` compares against 1000 only, so a closure with code
1001 takes the "closed with code ... and reason ..." branch, not the
normal-disconnect branch. -/
theorem C6_counterexample_bridge_1001_abnormal :
    PlainBridge.handle_ws_connection_closed 1001 "" =
      { eventSet := true, normalBranch := false } := by
  decide

/-- C6 (amended): in the io server (and the identical gpgl bridge
handler) codes 1000 and 1001 are informational and every other code is a
warning; in the plain `Bridge` variant only 1000 takes the normal
branch.  In every variant the completion event is set unconditionally,
and the classification never affects control flow: the receive loop's
reaction to a closure (registry removal, exit kind) is identical for any
two close codes. -/
theorem C6_close_code_affects_log_level_only :
    ∀ (code : Nat) (reason name : String),
      ((IoServer.handle_ws_connection_closed name code reason).eventSet = true)
      ∧ ((IoServer.handle_ws_connection_closed name code reason).log.isInfo =
          true ↔ (code = 1000 ∨ code = 1001))
      ∧ ((IoServer.handle_ws_connection_closed name code reason).log.isWarning =
          true ↔ ¬(code = 1000 ∨ code = 1001))
      ∧ (∀ w : GpglBridge.WsConnection, ∃ lg,
          GpglBridge.handle_ws_connection_closed (.ws w) code reason = .ok lg
          ∧ (lg.isInfo = true ↔ (code = 1000 ∨ code = 1001)))
      ∧ ((PlainBridge.handle_ws_connection_closed code reason).eventSet = true)
      ∧ ((PlainBridge.handle_ws_connection_closed code reason).normalBranch =
          true ↔ code = 1000)
      ∧ (∀ (conn : IoServer.WsConnection)
          (tcpAt : Nat → List IoServer.TcpConnection) (k : Nat)
          (ws : List IoServer.WsConnection) (logs : List LogEvent)
          (writes : List (IoServer.TcpConnection × Nat × List Nat))
          (code2 : Nat) (r1 r2 : String) (rest : List IoServer.WsEvent),
          (IoServer.handle_websocket_data conn tcpAt k ws logs writes
              (.closedErr code r1 :: rest)).ws =
            (IoServer.handle_websocket_data conn tcpAt k ws logs writes
              (.closedErr code2 r2 :: rest)).ws
          ∧ (IoServer.handle_websocket_data conn tcpAt k ws logs writes
              (.closedErr code r1 :: rest)).exit =
            (IoServer.handle_websocket_data conn tcpAt k ws logs writes
              (.closedErr code2 r2 :: rest)).exit) := by
  intro code reason name
  have hmem : code ∈ IoServer.OK_WS_CLOSE_CODES ↔ (code = 1000 ∨ code = 1001) := by
    simp [IoServer.OK_WS_CLOSE_CODES]
  have hmem2 : code ∈ GpglBridge.OK_WS_CLOSE_CODES ↔
      (code = 1000 ∨ code = 1001) := by
    simp [GpglBridge.OK_WS_CLOSE_CODES]
  refine ⟨rfl, ?_, ?_, ?_, rfl, ?_, ?_⟩
  · by_cases h : code ∈ IoServer.OK_WS_CLOSE_CODES
    · unfold IoServer.handle_ws_connection_closed
      rw [if_pos h]
      exact ⟨fun _ => hmem.1 h, fun _ => rfl⟩
    · unfold IoServer.handle_ws_connection_closed
      rw [if_neg h]
      exact ⟨fun hc => Bool.noConfusion hc, fun hc => absurd (hmem.2 hc) h⟩
  · by_cases h : code ∈ IoServer.OK_WS_CLOSE_CODES
    · unfold IoServer.handle_ws_connection_closed
      rw [if_pos h]
      exact ⟨fun hc => Bool.noConfusion hc, fun hc => absurd (hmem.1 h) hc⟩
    · unfold IoServer.handle_ws_connection_closed
      rw [if_neg h]
      exact ⟨fun _ hc => h (hmem.2 hc), fun _ => rfl⟩
  · intro w
    refine ⟨_, rfl, ?_⟩
    by_cases h : code ∈ GpglBridge.OK_WS_CLOSE_CODES
    · rw [if_pos h]
      exact ⟨fun _ => hmem2.1 h, fun _ => rfl⟩
    · rw [if_neg h]
      exact ⟨fun hc => Bool.noConfusion hc, fun hc => absurd (hmem2.2 hc) h⟩
  · exact ⟨fun hc => of_decide_eq_true hc, fun hc => decide_eq_true hc⟩
  · intro conn tcpAt k ws logs writes code2 r1 r2 rest
    cases hpr : pyRemove ws conn with
    | error u =>
      constructor
      · simp [IoServer.handle_websocket_data, hpr]
      · simp [IoServer.handle_websocket_data, hpr]
    | ok ws' =>
      constructor
      · simp [IoServer.handle_websocket_data, hpr]
      · simp [IoServer.handle_websocket_data, hpr]

/-- C7: the claim asserts at most one removal call per connection even
when the connection's own receive loop and a concurrent broadcast both
observe its closure.  In the source nothing guards against this: after a
broadcast's `try_write_to_all` has already removed the closed connection
from `ws_connections`, the connection's own `handle_websocket_data` loop
also observes `ConnectionClosed` and calls `ws_connections.remove` a
second time, which raises `ValueError` (exit kind `valueError` below).
When only the receive loop observes the closure the removal succeeds
(`closedRemoved`). -/
theorem C7_double_close_observation_value_error :
    ((IoServer.try_write_to_all [71] (fun _ => .connClosed 1001 "")
        [⟨"w"⟩]).ws = [])
    ∧ (IoServer.handle_websocket_data ⟨"w"⟩ (fun _ => []) 0
        (IoServer.try_write_to_all [71] (fun _ => .connClosed 1001 "")
          [⟨"w"⟩]).ws [] [] [.closedErr 1001 ""]).exit = .valueError
    ∧ (IoServer.handle_websocket_data ⟨"w"⟩ (fun _ => []) 0 [⟨"w"⟩] [] []
        [.closedErr 1001 ""]).exit = .closedRemoved
    ∧ (IoServer.handle_websocket_data ⟨"w"⟩ (fun _ => []) 0 [⟨"w"⟩] [] []
        [.closedErr 1001 ""]).ws = [] := by
  decide

/-- C8: in the WS data-producer forwarder (`handle_websocket_data`) the
per-message write loop contains no await, so the write trace is exactly
the concatenation of per-message blocks: message indices are
non-decreasing along the trace (all writes of an earlier message precede
all writes of a later one), every connection registered while message
`j` is handled receives message `j`, and each consumer sees the
producer's messages in emission order. -/
theorem C8_producer_message_ordering (conn : IoServer.WsConnection)
    (tcpAt : Nat → List IoServer.TcpConnection) (msgs : List (List Nat))
    (ws : List IoServer.WsConnection) (logs : List LogEvent) :
    ((IoServer.handle_websocket_data conn tcpAt 0 ws logs []
        (msgs.map .msg)).writes = IoServer.messageBlocks tcpAt 0 msgs)
    ∧ List.Pairwise (fun a b => a.2.1 ≤ b.2.1)
        (IoServer.handle_websocket_data conn tcpAt 0 ws logs []
          (msgs.map .msg)).writes
    ∧ (∀ (j : Nat) (d : List Nat), msgs.get? j = some d →
        ∀ t ∈ tcpAt j, (t, j, d) ∈
          (IoServer.handle_websocket_data conn tcpAt 0 ws logs []
            (msgs.map .msg)).writes)
    ∧ (∀ t : IoServer.TcpConnection, List.Pairwise (fun a b => a ≤ b)
        (((IoServer.handle_websocket_data conn tcpAt 0 ws logs []
          (msgs.map .msg)).writes.filter (fun x => x.1 = t)).map
          (fun x => x.2.1))) := by
  rw [IoServer.handle_websocket_data_msgs conn tcpAt msgs 0 ws logs []]
  refine ⟨by simp, by simpa using IoServer.messageBlocks_pairwise tcpAt msgs 0,
    ?_, ?_⟩
  · intro j d hj t ht
    have := IoServer.messageBlocks_mem tcpAt msgs 0 j d t hj
      (by simpa using ht)
    simpa using this
  · intro t
    simp only [List.nil_append]
    have hpw := IoServer.messageBlocks_pairwise tcpAt msgs 0
    exact List.pairwise_map.2
      (List.Pairwise.sublist (List.filter_sublist _) hpw)

/-- Witness for C8: one producer sending two messages to a single
registered TCP connection — both writes appear in the trace at their
message indices. -/
theorem C8_producer_message_ordering_witness :
    ((⟨"t"⟩, 0, [1]) ∈ (IoServer.handle_websocket_data ⟨"w"⟩
      (fun _ => [⟨"t"⟩]) 0 [] [] [] ([[1], [2]].map .msg)).writes)
    ∧ ((⟨"t"⟩, 1, [2]) ∈ (IoServer.handle_websocket_data ⟨"w"⟩
      (fun _ => [⟨"t"⟩]) 0 [] [] [] ([[1], [2]].map .msg)).writes) := by
  constructor
  · exact (C8_producer_message_ordering ⟨"w"⟩ (fun _ => [⟨"t"⟩]) [[1], [2]]
      [] []).2.2.1 0 [1] rfl ⟨"t"⟩ (by decide)
  · exact (C8_producer_message_ordering ⟨"w"⟩ (fun _ => [⟨"t"⟩]) [[1], [2]]
      [] []).2.2.1 1 [2] rfl ⟨"t"⟩ (by decide)

/-- C9: a raw-mode read that returns a non-empty chunk containing a byte
≥ 128 makes `data.decode('ascii')` raise an uncaught
`UnicodeDecodeError` in all three raw forwarders: the task ends with the
`nonAscii` exit before any registry removal, so in the bridge variants
the TCP connection (writer) is still registered, and in all variants the
WebSocket registry is untouched by the failed iteration. -/
theorem C9_nonascii_chunk_kills_forwarder :
    (∀ (out : Nat → GpglBridge.WsConnection → SendResult)
      (conn : GpglBridge.TcpConnection) (k : Nat)
      (ws : List GpglBridge.WsConnection) (tcp : List GpglBridge.TcpConnection)
      (logs : List LogEvent) (sends : List (GpglBridge.WsConnection × List Nat))
      (data : List Nat) (rest : List (List Nat)),
      ¬allAscii data = true →
      GpglBridge.forward_from_tcp out conn k ws tcp logs sends (data :: rest) =
        { ws := ws, tcp := tcp, logs := logs, sends := sends
          exit := .nonAscii })
    ∧ (∀ (out : Nat → IoServer.WsConnection → SendResult)
      (conn : IoServer.TcpConnection) (k : Nat)
      (ws : List IoServer.WsConnection) (logs : List LogEvent)
      (sends : List (IoServer.WsConnection × List Nat))
      (data : List Nat) (rest : List (List Nat)),
      ¬allAscii data = true →
      IoServer.handle_raw_gpgl_tcp_connection out conn k ws logs sends
          (data :: rest) =
        { ws := ws, logs := logs ++ [.debug "Forwarding raw GPGL"]
          sends := sends, exit := .nonAscii })
    ∧ (∀ (out : Nat → PlainBridge.WsClient → SendResult)
      (writer : PlainBridge.TcpWriter) (k : Nat)
      (wsClients : List PlainBridge.WsClient)
      (tcpWriters : List PlainBridge.TcpWriter)
      (sends : List (PlainBridge.WsClient × List Nat))
      (data : List Nat) (rest : List (List Nat)),
      ¬allAscii data = true →
      PlainBridge.forward_from_tcp_connection out writer k wsClients
          tcpWriters sends (data :: rest) =
        { wsClients := wsClients, tcpWriters := tcpWriters, sends := sends
          exit := .nonAscii }) := by
  refine ⟨?_, ?_, ?_⟩
  · intro out conn k ws tcp logs sends data rest hbad
    have hne : ¬(data = []) := fun he => hbad (by rw [he]; rfl)
    unfold GpglBridge.forward_from_tcp
    rw [if_neg hne, if_neg hbad]
  · intro out conn k ws logs sends data rest hbad
    have hne : ¬(data = []) := fun he => hbad (by rw [he]; rfl)
    unfold IoServer.handle_raw_gpgl_tcp_connection
    rw [if_neg hne, if_neg hbad]
  · intro out writer k wsClients tcpWriters sends data rest hbad
    have hne : ¬(data = []) := fun he => hbad (by rw [he]; rfl)
    unfold PlainBridge.forward_from_tcp_connection
    rw [if_neg hne, if_neg hbad]

/-- Witness for C9: the chunk `[200]` at the head of each forwarder's
read script. -/
theorem C9_nonascii_chunk_kills_forwarder_witness :
    (GpglBridge.forward_from_tcp (fun _ _ => .ok) ⟨"t"⟩ 0 [⟨"w"⟩] [⟨"t"⟩]
        [] [] [[200]] =
      { ws := [⟨"w"⟩], tcp := [⟨"t"⟩], logs := [], sends := []
        exit := .nonAscii })
    ∧ (IoServer.handle_raw_gpgl_tcp_connection (fun _ _ => .ok) ⟨"g"⟩ 0
        [⟨"w"⟩] [] [] [[200]] =
      { ws := [⟨"w"⟩], logs := [] ++ [.debug "Forwarding raw GPGL"]
        sends := [], exit := .nonAscii })
    ∧ (PlainBridge.forward_from_tcp_connection (fun _ _ => .ok) ⟨0⟩ 0 [⟨1⟩]
        [⟨0⟩] [] [[200]] =
      { wsClients := [⟨1⟩], tcpWriters := [⟨0⟩], sends := []
        exit := .nonAscii }) := by
  refine ⟨?_, ?_, ?_⟩
  · exact C9_nonascii_chunk_kills_forwarder.1 (fun _ _ => .ok) ⟨"t"⟩ 0 [⟨"w"⟩]
      [⟨"t"⟩] [] [] [200] [] (by decide)
  · exact C9_nonascii_chunk_kills_forwarder.2.1 (fun _ _ => .ok) ⟨"g"⟩ 0
      [⟨"w"⟩] [] [] [200] [] (by decide)
  · exact C9_nonascii_chunk_kills_forwarder.2.2 (fun _ _ => .ok) ⟨0⟩ 0 [⟨1⟩]
      [⟨0⟩] [] [200] [] (by decide)

/-- C10: connections accepted on the raw-GPGL port are registered
nowhere: `accept_gpgl_tcp_connection` returns both registries exactly as
given; the raw handler can only shrink the WebSocket registry, and a
WebSocket connection disappears from it only if one of its own sends
raised `ConnectionClosed`; and since the WS data producer writes only to
members of the emulator TCP registry, a connection never present in that
registry receives no WS-to-TCP reverse traffic. -/
theorem C10_raw_port_never_registered :
    (∀ (name : String) (ws : List IoServer.WsConnection)
      (tcp : List IoServer.TcpConnection),
      (IoServer.accept_gpgl_tcp_connection name ws tcp).2.1 = ws
      ∧ (IoServer.accept_gpgl_tcp_connection name ws tcp).2.2 = tcp)
    ∧ (∀ (out : Nat → IoServer.WsConnection → SendResult)
      (conn : IoServer.TcpConnection) (chunks : List (List Nat)) (k : Nat)
      (ws : List IoServer.WsConnection) (logs : List LogEvent)
      (sends : List (IoServer.WsConnection × List Nat)),
      ((IoServer.handle_raw_gpgl_tcp_connection out conn k ws logs sends
        chunks).ws ⊆ ws)
      ∧ (∀ w ∈ ws, w ∉ (IoServer.handle_raw_gpgl_tcp_connection out conn k ws
          logs sends chunks).ws →
          ∃ k' code reason, out k' w = .connClosed code reason))
    ∧ (∀ (wsc : IoServer.WsConnection)
      (tcpAt : Nat → List IoServer.TcpConnection) (k : Nat)
      (ws : List IoServer.WsConnection) (logs : List LogEvent)
      (events : List IoServer.WsEvent) (raw : IoServer.TcpConnection),
      (∀ j, raw ∉ tcpAt j) →
      ∀ jd : Nat × List Nat,
        (raw, jd) ∉ (IoServer.handle_websocket_data wsc tcpAt k ws logs []
          events).writes) := by
  refine ⟨?_, ?_, ?_⟩
  · intro name ws tcp
    exact ⟨rfl, rfl⟩
  · intro out conn chunks k ws logs sends
    exact IoServer.handle_raw_ws_subset out conn chunks k ws logs sends
  · intro wsc tcpAt k ws logs events raw hnot jd hmem
    rcases IoServer.handle_websocket_data_writes_registered wsc tcpAt events k
      ws logs [] (raw, jd) hmem with h | h
    · cases h
    · exact hnot jd.1 h

/-- Witness for C10: a raw-port connection with a failing WebSocket
target — the failed target was removed because its own send raised — and
a producer whose registry never contains the raw connection issues no
write to it. -/
theorem C10_raw_port_never_registered_witness :
    ((IoServer.accept_gpgl_tcp_connection "r" [⟨"w"⟩] [⟨"e"⟩]).2.1 = [⟨"w"⟩])
    ∧ (∃ k' code reason,
        (fun (_ : Nat) (_ : IoServer.WsConnection) =>
          SendResult.connClosed 1005 "x") k' (⟨"a"⟩ : IoServer.WsConnection) =
          .connClosed code reason)
    ∧ ((⟨"r"⟩ : IoServer.TcpConnection), ((0 : Nat), [1])) ∉
        (IoServer.handle_websocket_data ⟨"w"⟩ (fun _ => []) 0 [] [] []
          [.msg [1]]).writes := by
  refine ⟨?_, ?_, ?_⟩
  · exact (C10_raw_port_never_registered.1 "r" [⟨"w"⟩] [⟨"e"⟩]).1
  · exact (C10_raw_port_never_registered.2.1
      (fun _ _ => SendResult.connClosed 1005 "x") ⟨"g"⟩ [[80]] 0 [⟨"a"⟩] []
      []).2 ⟨"a"⟩ (by decide) (by decide)
  · exact C10_raw_port_never_registered.2.2 ⟨"w"⟩ (fun _ => []) 0 [] []
      [.msg [1]] ⟨"r"⟩ (fun _ h => (List.not_mem_nil _) h) (0, [1])

end Debugger
